import Mathlib

/-!
Verification development for the gateway-supervision wrapper
(`src/server.js` of the clawdbot-railway-template repository).

The wrapper runs on a single-threaded event loop.  Module-level mutable
variables `gatewayProc` and `gatewayStarting` implement the supervisor;
`ensureGatewayRunning`, `startGateway`, `restartGateway`, the child's
`error`/`exit` event handlers and the readiness poll
`waitForGatewayReady` operate on them.  We embed each synchronous
section of that code (the stretches between `await` suspension points
and the event-loop callbacks) as a pure function on an explicit
supervisor state, and the readiness poll as a fuel-bounded loop over an
abstract `fetch` oracle.  Instrumentation fields (`spawnCount`,
`signals`, `sleepMs`, `settled`) record the externally observable
effects: child-process spawns, signals sent, grace-delay sleeps, and
promise settlements delivered to awaiting callers.
-/

/-! ### Environment shaping (server.js lines 100-110, 222-229, 1270-1292)

A process environment is modelled as a partial map from variable names
to values (`none` = variable absent). -/

/-- Env vars that only the wrapper needs, stripped before spawning the
gateway or exec children (server.js `WRAPPER_ONLY_ENV_KEYS`). -/
def WRAPPER_ONLY_ENV_KEYS : List String := ["SETUP_PASSWORD"]

/-- server.js `gatewayEnv()`: a copy of `process.env` with every key in
`WRAPPER_ONLY_ENV_KEYS` deleted. -/
def gatewayEnv (penv : String → Option String) : String → Option String :=
  fun k => if k ∈ WRAPPER_ONLY_ENV_KEYS then none else penv k

/-- The environment handed to the long-lived gateway child in
`startGateway` (server.js lines 222-229): the JS spread
`\x7b ...gatewayEnv(), OPENCLAW_STATE_DIR: STATE_DIR,
OPENCLAW_WORKSPACE_DIR: WORKSPACE_DIR \x7d`, where the two literal keys
override anything from `gatewayEnv()`. -/
def startGatewayEnv (penv : String → Option String) (stateDir workspaceDir : String) :
    String → Option String :=
  fun k =>
    if k = "OPENCLAW_STATE_DIR" then some stateDir
    else if k = "OPENCLAW_WORKSPACE_DIR" then some workspaceDir
    else gatewayEnv penv k

/-- The environment handed to every short-lived CLI child in `runCmd`
(server.js lines 1270-1292): built by the same spread expression as the
gateway spawn. -/
def runCmdEnv (penv : String → Option String) (stateDir workspaceDir : String) :
    String → Option String :=
  fun k =>
    if k = "OPENCLAW_STATE_DIR" then some stateDir
    else if k = "OPENCLAW_WORKSPACE_DIR" then some workspaceDir
    else gatewayEnv penv k

/-- JS `s.startsWith(pre)`: `pre` is a prefix of `s`'s character
sequence. -/
def strStartsWith (s pre : String) : Bool := pre.data.isPrefixOf s.data

/-- JS `s.trim()`: strip leading and trailing whitespace. -/
def strTrim (s : String) : String :=
  ⟨((s.data.dropWhile Char.isWhitespace).reverse.dropWhile Char.isWhitespace).reverse⟩

/-! ### Gateway token resolution (server.js lines 64-87)

The filesystem visible to `resolveGatewayToken` is modelled as an
association list from path to file content; `fsRead` is
`fs.readFileSync` (`none` = the read throws), `fsWrite` is
`fs.writeFileSync`. -/

/-- File store: path ↦ content. -/
abbrev FsState := List (String × String)

/-- `fs.readFileSync(p)` — most recent write wins. -/
def fsRead (fsv : FsState) (p : String) : Option String :=
  match fsv with
  | [] => none
  | (q, c) :: rest => if p = q then some c else fsRead rest p

/-- `fs.writeFileSync(p, c)`. -/
def fsWrite (fsv : FsState) (p c : String) : FsState := (p, c) :: fsv

/-- Path of the persisted token file: `path.join(STATE_DIR, "gateway.token")`. -/
def gatewayTokenPath (stateDir : String) : String := stateDir ++ "/gateway.token"

/-- server.js `resolveGatewayToken()`.  `envTok` is the (already
trimmed, nonempty-or-absent) result of `getEnvWithShim` on
`OPENCLAW_GATEWAY_TOKEN`/`CLAWDBOT_GATEWAY_TOKEN`; `generated` stands
for the fresh `crypto.randomBytes(32).toString("hex")` value this call
would draw.  Returns the resolved token and the filesystem after the
call (the generated token is persisted best-effort; we model the write
as succeeding). -/
def resolveGatewayToken (envTok : Option String) (generated : String)
    (stateDir : String) (fsv : FsState) : String × FsState :=
  match envTok with
  | some t => (t, fsv)
  | none =>
    match fsRead fsv (gatewayTokenPath stateDir) with
    | some content =>
      let existing := strTrim content
      if existing ≠ "" then (existing, fsv)
      else (generated, fsWrite fsv (gatewayTokenPath stateDir) generated)
    | none => (generated, fsWrite fsv (gatewayTokenPath stateDir) generated)

/-! ### Readiness poll (server.js lines 142-176)

`fetch` is the HTTP probe oracle: `fetch i p = some status` means the
GET of candidate path `p` during poll cycle `i` yielded an HTTP
response with that status code; `none` means the request threw
(connection refused / 2s AbortSignal timeout).  The source returns
`true` on *any* resolved response (`if (res) return true`), so the
status value is never inspected.  The `while (Date.now() - start <
timeoutMs)` loop is embedded with fuel: one unit of fuel per full poll
cycle (each cycle also sleeps 500ms in the source, so the 30s timeout
bounds the fuel; the claims hold for every fuel value). -/

/-- Candidate probe paths, in source order: current Control UI base
path, legacy fallback, root. -/
def READY_PATHS : List String := ["/openclaw", "/clawdbot", "/"]

/-- One full poll cycle: try each candidate path in order; ready as
soon as any request yields an HTTP response, whatever its status. -/
def pollCycle (fetch : String → Option Nat) : Bool :=
  READY_PATHS.any fun p => (fetch p).isSome

/-- server.js `waitForGatewayReady`: repeat poll cycles until one sees
an HTTP response (→ `true`) or the fuel/timeout runs out (→ `false`). -/
def waitForGatewayReady (fetch : Nat → String → Option Nat) : Nat → Nat → Bool
  | _, 0 => false
  | i, fuel + 1 => if pollCycle (fetch i) then true else waitForGatewayReady fetch (i + 1) fuel

/-! ### Supervisor state machine (server.js lines 135-290)

`SupState` collects the module-level mutable supervisor variables plus
instrumentation of the observable effects.  Attempt promises are
identified by a counter (`nextAttemptId`); `gatewayStarting = some a`
means the variable currently holds attempt `a`'s promise.  `settled`
records each attempt promise's settlement — `(a, true)` when attempt
`a` resolved (its awaiting callers see success), `(a, false)` when it
rejected (they see the error).  Clearing the `gatewayStarting`
*variable* does not settle the *promise*: callers hold the promise
itself, which is why the two are tracked separately, exactly as in the
source. -/

structure SupState where
  /-- `isConfigured()`: the config file exists. -/
  configured : Bool
  /-- `gatewayProc` (pid when a handle is present). -/
  gatewayProc : Option Nat
  /-- `gatewayStarting` (id of the attempt promise stored in the variable). -/
  gatewayStarting : Option Nat
  /-- Fresh attempt-promise ids. -/
  nextAttemptId : Nat
  /-- Fresh pids for spawned children. -/
  nextPid : Nat
  /-- Number of `childProcess.spawn` calls made for the gateway. -/
  spawnCount : Nat
  /-- Settlements of attempt promises: (attempt id, resolved?). -/
  settled : List (Nat × Bool)
  /-- Signals sent to child processes: (pid, signal name). -/
  signals : List (Nat × String)
  /-- Total milliseconds spent in `sleep(...)` grace delays. -/
  sleepMs : Nat
deriving Repr, DecidableEq

/-- Settlement delivered to a caller awaiting attempt `a` (`none` =
the promise is still pending, the caller is still waiting). -/
def settledOutcome (a : Nat) : List (Nat × Bool) → Option Bool
  | [] => none
  | (b, r) :: rest => if a = b then some r else settledOutcome a rest

/-- What a call to `ensureGatewayRunning()` observes at its synchronous
prefix (server.js lines 249-273, up to `await gatewayStarting`). -/
inductive EnsureOutcome where
  /-- Returned `\x7b ok: false, reason: "not configured" \x7d`. -/
  | notConfigured
  /-- Returned `\x7b ok: true \x7d` immediately: handle already present. -/
  | okRunning (pid : Nat)
  /-- The caller awaits attempt promise `a` (either joined an existing
  in-flight attempt or created attempt `a` itself). -/
  | awaits (attempt : Nat)
deriving Repr, DecidableEq

/-- The synchronous prefix of `ensureGatewayRunning()` (server.js lines
249-273).  On the single-threaded event loop this whole stretch —
config check, handle check, attempt creation and storing the promise —
runs atomically: the attempt body suspends at its first `await` inside
`startGateway` before any of its effects beyond promise creation. -/
def ensureGatewayRunning (s : SupState) : SupState × EnsureOutcome :=
  if !s.configured then (s, .notConfigured)
  else
    match s.gatewayProc with
    | some pid => (s, .okRunning pid)
    | none =>
      match s.gatewayStarting with
      | some a => (s, .awaits a)
      | none =>
        ({ s with gatewayStarting := some s.nextAttemptId,
                  nextAttemptId := s.nextAttemptId + 1 },
         .awaits s.nextAttemptId)

/-- `N` ensure calls processed in sequence by the event loop (the
synchronous prefixes of concurrent callers are serialized; the pending
attempt body cannot run in between, since its `await runCmd(...)`
resolves only on a child-process close event). -/
def ensureMany : Nat → SupState → SupState × List EnsureOutcome
  | 0, s => (s, [])
  | n + 1, s =>
    let r := ensureGatewayRunning s
    let rest := ensureMany n r.1
    (rest.1, r.2 :: rest.2)

/-- The spawn step inside `startGateway()` (server.js lines 180-229):
guarded by the early `if (gatewayProc) return` and the
`if (!isConfigured()) throw`; otherwise `childProcess.spawn` runs,
the handle is stored, and one more child process exists. -/
def startGatewaySpawn (s : SupState) : SupState :=
  match s.gatewayProc with
  | some _ => s
  | none =>
    if !s.configured then s
    else { s with gatewayProc := some s.nextPid,
                  nextPid := s.nextPid + 1,
                  spawnCount := s.spawnCount + 1 }

/-- The child's `error` event handler (server.js lines 231-235): on a
spawn failure it nulls `gatewayProc` and `gatewayStarting`.  It does
not touch any attempt promise: nothing here settles `settled`. -/
def onGatewayError (s : SupState) : SupState :=
  { s with gatewayProc := none, gatewayStarting := none }

/-- The child's `exit` event handler (server.js lines 237-246): for
every exit code and signal (they only change the log line) it nulls
`gatewayProc` and `gatewayStarting`. -/
def onGatewayExit (_code : Option Int) (_signal : Option String) (s : SupState) : SupState :=
  { s with gatewayProc := none, gatewayStarting := none }

/-- Settlement of attempt promise `a` (server.js lines 260-271): the
async body resolves (`success = true`) or rejects (`success = false`,
after `waitForGatewayReady` returned false and the body threw), the
settlement is delivered to every caller awaiting the promise, and the
`.finally` handler nulls the `gatewayStarting` variable. -/
def settleAttempt (a : Nat) (success : Bool) (s : SupState) : SupState :=
  { s with settled := (a, success) :: s.settled, gatewayStarting := none }

/-- One complete schedule of attempt `a`'s body (server.js lines
260-271) with no other events interleaved: `await startGateway()` —
which throws if the config file vanished and no handle exists,
rejecting the attempt at once, and otherwise performs the spawn — then
`waitForGatewayReady`, then settlement (resolve if ready, reject if
not), with `.finally` clearing the variable. -/
def runAttemptBody (a : Nat) (fetch : Nat → String → Option Nat) (fuel : Nat)
    (s : SupState) : SupState :=
  if s.gatewayProc.isNone && !s.configured then
    settleAttempt a false s
  else
    settleAttempt a (waitForGatewayReady fetch 0 fuel) (startGatewaySpawn s)

/-- The synchronous prefix of `restartGateway()` (server.js lines
278-290): if a handle exists, send SIGTERM, sleep the 750ms grace
delay, null the handle; in every case finish by calling
`ensureGatewayRunning()` and returning its result. -/
def restartGateway (s : SupState) : SupState × EnsureOutcome :=
  match s.gatewayProc with
  | some pid =>
    ensureGatewayRunning
      { s with signals := (pid, "SIGTERM") :: s.signals,
               sleepMs := s.sleepMs + 750,
               gatewayProc := none }
  | none => ensureGatewayRunning s

/-! ### Fallback proxy handler (server.js lines 1971-1986)

The terminal `app.use` handler, reached by every request no registered
route claimed.  Its decision depends only on `isConfigured()`, the
request path, and (when configured) whether `ensureGatewayRunning()`
resolved; `ensureCalled` records whether the handler invoked
`ensureGatewayRunning` at all. -/

/-- Response action taken by the fallback handler. -/
inductive FallbackAction where
  /-- `res.redirect("/setup")`. -/
  | redirectToSetup
  /-- `res.status(503) ... Gateway not ready`. -/
  | respond503
  /-- `proxy.web(req, res, \x7b target: GATEWAY_TARGET \x7d)`. -/
  | proxyToGateway
deriving Repr, DecidableEq

/-- Result of the fallback handler: the action, and whether
`ensureGatewayRunning()` was invoked while handling the request. -/
structure FallbackResult where
  action : FallbackAction
  ensureCalled : Bool
deriving Repr, DecidableEq

/-- The fallback `app.use` handler (server.js lines 1971-1986).
`ensureOk` tells whether, when it is consulted, the awaited
`ensureGatewayRunning()` call resolves or throws. -/
def fallbackHandler (configured : Bool) (reqPath : String) (ensureOk : Bool) :
    FallbackResult :=
  if !configured && !(strStartsWith reqPath "/setup") then
    { action := .redirectToSetup, ensureCalled := false }
  else if configured then
    if ensureOk then { action := .proxyToGateway, ensureCalled := true }
    else { action := .respond503, ensureCalled := true }
  else
    { action := .proxyToGateway, ensureCalled := false }

/-! ### Helper lemmas -/

/-- Joining an existing in-flight attempt leaves the state unchanged
and hands the caller that attempt's promise. -/
theorem ensureGatewayRunning_join (s : SupState) (a : Nat) (hc : s.configured = true)
    (hp : s.gatewayProc = none) (hs : s.gatewayStarting = some a) :
    ensureGatewayRunning s = (s, .awaits a) := by
  simp [ensureGatewayRunning, hc, hp, hs]

/-- Any number of ensure calls while an attempt is in flight all join
that same attempt and change nothing. -/
theorem ensureMany_join (n : Nat) (s : SupState) (a : Nat) (hc : s.configured = true)
    (hp : s.gatewayProc = none) (hs : s.gatewayStarting = some a) :
    ensureMany n s = (s, List.replicate n (.awaits a)) := by
  induction n with
  | zero => rfl
  | succ m ih =>
    simp [ensureMany, ensureGatewayRunning_join s a hc hp hs, ih, List.replicate_succ]

/-- If no probe ever yields an HTTP response, the readiness poll
exhausts its fuel/timeout and reports not ready. -/
theorem waitForGatewayReady_no_response (fetch : Nat → String → Option Nat)
    (h : ∀ i p, fetch i p = none) (i fuel : Nat) :
    waitForGatewayReady fetch i fuel = false := by
  induction fuel generalizing i with
  | zero => rfl
  | succ m ih => simp [waitForGatewayReady, pollCycle, READY_PATHS, h, ih]

/-! ### Claim theorems -/

/-- C2: while the configuration file does not exist, every
`ensureGatewayRunning()` call — no matter how many run concurrently —
returns the structured not-configured failure, spawns nothing, and
mutates no supervisor state. -/
theorem c2_not_configured_gate (s : SupState) (N : Nat) (h : s.configured = false) :
    ensureGatewayRunning s = (s, .notConfigured) ∧
    ensureMany N s = (s, List.replicate N .notConfigured) := by
  have h1 : ensureGatewayRunning s = (s, .notConfigured) := by
    simp [ensureGatewayRunning, h]
  refine ⟨h1, ?_⟩
  induction N with
  | zero => rfl
  | succ m ih => simp [ensureMany, h1, ih, List.replicate_succ]

/-- A Stopped, unconfigured supervisor state. -/
def stoppedUnconfigured : SupState :=
  { configured := false, gatewayProc := none, gatewayStarting := none,
    nextAttemptId := 0, nextPid := 11, spawnCount := 0,
    settled := [], signals := [], sleepMs := 0 }

theorem c2_witness :
    stoppedUnconfigured.configured = false ∧
    (ensureGatewayRunning stoppedUnconfigured = (stoppedUnconfigured, .notConfigured) ∧
     ensureMany 3 stoppedUnconfigured = (stoppedUnconfigured, List.replicate 3 .notConfigured)) :=
  ⟨rfl, c2_not_configured_gate stoppedUnconfigured 3 rfl⟩

/-- C6: the readiness poll reports ready upon receiving any HTTP
response from any candidate path, regardless of status code: the very
first poll cycle succeeds and the poll returns true with any positive
fuel — in particular against an upstream answering 404 on every path
(see the witness). -/
theorem c6_ready_on_any_response (fetch : Nat → String → Option Nat) (p : String)
    (hp : p ∈ READY_PATHS) (hr : (fetch 0 p).isSome = true) (fuel : Nat) (hf : 1 ≤ fuel) :
    pollCycle (fetch 0) = true ∧ waitForGatewayReady fetch 0 fuel = true := by
  have hcyc : pollCycle (fetch 0) = true := by
    simp only [pollCycle, List.any_eq_true]
    exact ⟨p, hp, hr⟩
  refine ⟨hcyc, ?_⟩
  match fuel, hf with
  | m + 1, _ => simp [waitForGatewayReady, hcyc]

/-- A stub upstream that accepts connections and answers HTTP 404 on
every path of every poll cycle. -/
def fetch404 : Nat → String → Option Nat := fun _ _ => some 404

theorem c6_witness :
    ("/openclaw" ∈ READY_PATHS ∧ (fetch404 0 "/openclaw").isSome = true ∧ 1 ≤ 1) ∧
    (pollCycle (fetch404 0) = true ∧ waitForGatewayReady fetch404 0 1 = true) :=
  ⟨⟨by decide, rfl, Nat.le_refl 1⟩,
   c6_ready_on_any_response fetch404 "/openclaw" (by decide) rfl 1 (Nat.le_refl 1)⟩

/-- C7: `restartGateway()` while Stopped (no process handle) is
literally `ensureGatewayRunning()`: the signal/grace-delay branch is
skipped (the grace delay is a no-op — no signal sent, no sleep
accumulated) and the caller gets the same result from the same state. -/
theorem c7_restart_when_stopped (s : SupState) (h : s.gatewayProc = none) :
    restartGateway s = ensureGatewayRunning s ∧
    (ensureGatewayRunning s).1.signals = s.signals ∧
    (ensureGatewayRunning s).1.sleepMs = s.sleepMs := by
  refine ⟨by simp [restartGateway, h], ?_, ?_⟩ <;>
    cases hcfg : s.configured <;>
      cases hs : s.gatewayStarting <;>
        simp [ensureGatewayRunning, hcfg, h, hs]

/-- A Stopped, configured supervisor state. -/
def stoppedConfigured : SupState :=
  { configured := true, gatewayProc := none, gatewayStarting := none,
    nextAttemptId := 0, nextPid := 41, spawnCount := 0,
    settled := [], signals := [], sleepMs := 0 }

theorem c7_witness :
    stoppedConfigured.gatewayProc = none ∧
    (restartGateway stoppedConfigured = ensureGatewayRunning stoppedConfigured ∧
     (ensureGatewayRunning stoppedConfigured).1.signals = stoppedConfigured.signals ∧
     (ensureGatewayRunning stoppedConfigured).1.sleepMs = stoppedConfigured.sleepMs) :=
  ⟨rfl, c7_restart_when_stopped stoppedConfigured rfl⟩

/-- The stripped environment depends only on the non-secret variables. -/
theorem gatewayEnv_agree (penv penv2 : String → Option String)
    (hagree : ∀ k, k ≠ "SETUP_PASSWORD" → penv k = penv2 k) :
    gatewayEnv penv = gatewayEnv penv2 := by
  funext k
  by_cases hk : k ∈ WRAPPER_ONLY_ENV_KEYS
  · simp [gatewayEnv, hk]
  · have hk2 : k ≠ "SETUP_PASSWORD" := by
      simpa [WRAPPER_ONLY_ENV_KEYS] using hk
    simp [gatewayEnv, hk, hagree k hk2]

/-- C9: both child-environment constructions (the `runCmd` CLI spawn
and the `startGateway` gateway spawn) contain the resolved state and
workspace directory overrides and never the SETUP_PASSWORD variable;
consequently two wrapper runs whose process environments differ only in
SETUP_PASSWORD hand every child an identical environment. -/
theorem c9_child_env_excludes_secret (penv penv2 : String → Option String)
    (sd wd : String) (hagree : ∀ k, k ≠ "SETUP_PASSWORD" → penv k = penv2 k) :
    runCmdEnv penv sd wd "SETUP_PASSWORD" = none ∧
    startGatewayEnv penv sd wd "SETUP_PASSWORD" = none ∧
    runCmdEnv penv sd wd "OPENCLAW_STATE_DIR" = some sd ∧
    runCmdEnv penv sd wd "OPENCLAW_WORKSPACE_DIR" = some wd ∧
    startGatewayEnv penv sd wd "OPENCLAW_STATE_DIR" = some sd ∧
    startGatewayEnv penv sd wd "OPENCLAW_WORKSPACE_DIR" = some wd ∧
    runCmdEnv penv sd wd = runCmdEnv penv2 sd wd ∧
    startGatewayEnv penv sd wd = startGatewayEnv penv2 sd wd := by
  have hg := gatewayEnv_agree penv penv2 hagree
  refine ⟨?_, ?_, ?_, ?_, ?_, ?_, ?_, ?_⟩
  · simp [runCmdEnv, gatewayEnv, WRAPPER_ONLY_ENV_KEYS]
  · simp [startGatewayEnv, gatewayEnv, WRAPPER_ONLY_ENV_KEYS]
  · simp [runCmdEnv]
  · simp [runCmdEnv]
  · simp [startGatewayEnv]
  · simp [startGatewayEnv]
  · funext k
    simp only [runCmdEnv, hg]
  · funext k
    simp only [startGatewayEnv, hg]

/-- A wrapper process environment in which the admin password is set. -/
def penvWithSecret : String → Option String :=
  fun k => if k = "SETUP_PASSWORD" then some "hunter2" else some "v"

/-- The same environment with the admin password absent. -/
def penvNoSecret : String → Option String :=
  fun k => if k = "SETUP_PASSWORD" then none else some "v"

theorem c9_witness :
    (∀ k, k ≠ "SETUP_PASSWORD" → penvWithSecret k = penvNoSecret k) ∧
    (runCmdEnv penvWithSecret "/data/.openclaw" "/data/workspace" "SETUP_PASSWORD" = none ∧
     startGatewayEnv penvWithSecret "/data/.openclaw" "/data/workspace" "SETUP_PASSWORD" = none ∧
     runCmdEnv penvWithSecret "/data/.openclaw" "/data/workspace" "OPENCLAW_STATE_DIR"
       = some "/data/.openclaw" ∧
     runCmdEnv penvWithSecret "/data/.openclaw" "/data/workspace" "OPENCLAW_WORKSPACE_DIR"
       = some "/data/workspace" ∧
     startGatewayEnv penvWithSecret "/data/.openclaw" "/data/workspace" "OPENCLAW_STATE_DIR"
       = some "/data/.openclaw" ∧
     startGatewayEnv penvWithSecret "/data/.openclaw" "/data/workspace" "OPENCLAW_WORKSPACE_DIR"
       = some "/data/workspace" ∧
     runCmdEnv penvWithSecret "/data/.openclaw" "/data/workspace"
       = runCmdEnv penvNoSecret "/data/.openclaw" "/data/workspace" ∧
     startGatewayEnv penvWithSecret "/data/.openclaw" "/data/workspace"
       = startGatewayEnv penvNoSecret "/data/.openclaw" "/data/workspace") :=
  ⟨fun k hk => by simp [penvWithSecret, penvNoSecret, hk],
   c9_child_env_excludes_secret penvWithSecret penvNoSecret "/data/.openclaw" "/data/workspace"
     (fun k hk => by simp [penvWithSecret, penvNoSecret, hk])⟩

/-- C10: a request whose path starts with "/setup" but reaches the
fallback handler while the configuration file is absent is neither
redirected to /setup nor gated through `ensureGatewayRunning`; it is
forwarded straight to the proxy target. -/
theorem c10_unconfigured_setup_fallthrough (p : String) (ensureOk : Bool)
    (h : strStartsWith p "/setup" = true) :
    fallbackHandler false p ensureOk
      = { action := .proxyToGateway, ensureCalled := false } := by
  simp [fallbackHandler, h]

theorem c10_witness :
    strStartsWith "/setup/unknown" "/setup" = true ∧
    fallbackHandler false "/setup/unknown" false
      = { action := .proxyToGateway, ensureCalled := false } :=
  ⟨by decide, c10_unconfigured_setup_fallthrough "/setup/unknown" false (by decide)⟩

/-- C1: N ≥ 1 concurrent `ensureGatewayRunning()` calls issued while
the supervisor is Stopped (no handle, no in-flight attempt) and the
config file exists: the first call creates attempt `s.nextAttemptId`,
every one of the N callers awaits that same attempt, no spawn happens
during the calls themselves, and the single attempt body then performs
exactly one spawn and delivers exactly one shared settlement that all N
awaiting callers observe. -/
theorem c1_single_inflight_start (N : Nat) (s : SupState)
    (fetch : Nat → String → Option Nat) (fuel : Nat) (hN : 1 ≤ N)
    (hc : s.configured = true) (hp : s.gatewayProc = none)
    (hs : s.gatewayStarting = none) :
    (ensureMany N s).2 = List.replicate N (.awaits s.nextAttemptId) ∧
    (ensureMany N s).1 = { s with gatewayStarting := some s.nextAttemptId,
                                  nextAttemptId := s.nextAttemptId + 1 } ∧
    (ensureMany N s).1.spawnCount = s.spawnCount ∧
    (runAttemptBody s.nextAttemptId fetch fuel (ensureMany N s).1).spawnCount
      = s.spawnCount + 1 ∧
    (runAttemptBody s.nextAttemptId fetch fuel (ensureMany N s).1).settled
      = (s.nextAttemptId, waitForGatewayReady fetch 0 fuel) :: s.settled := by
  obtain ⟨m, rfl⟩ : ∃ m, N = m + 1 := ⟨N - 1, by omega⟩
  have hfirst : ensureGatewayRunning s
      = ({ s with gatewayStarting := some s.nextAttemptId,
                  nextAttemptId := s.nextAttemptId + 1 }, .awaits s.nextAttemptId) := by
    simp [ensureGatewayRunning, hc, hp, hs]
  have hrest : ensureMany m { s with gatewayStarting := some s.nextAttemptId,
                                     nextAttemptId := s.nextAttemptId + 1 }
      = ({ s with gatewayStarting := some s.nextAttemptId,
                  nextAttemptId := s.nextAttemptId + 1 },
         List.replicate m (.awaits s.nextAttemptId)) :=
    ensureMany_join m _ s.nextAttemptId hc hp rfl
  have hall : ensureMany (m + 1) s
      = ({ s with gatewayStarting := some s.nextAttemptId,
                  nextAttemptId := s.nextAttemptId + 1 },
         List.replicate (m + 1) (.awaits s.nextAttemptId)) := by
    simp [ensureMany, hfirst, hrest, List.replicate_succ]
  refine ⟨?_, ?_, ?_, ?_, ?_⟩ <;>
    simp [hall, runAttemptBody, startGatewaySpawn, settleAttempt, hp, hc]

theorem c1_witness :
    (1 ≤ 3 ∧ stoppedConfigured.configured = true ∧
     stoppedConfigured.gatewayProc = none ∧ stoppedConfigured.gatewayStarting = none) ∧
    ((ensureMany 3 stoppedConfigured).2
       = List.replicate 3 (.awaits stoppedConfigured.nextAttemptId) ∧
     (ensureMany 3 stoppedConfigured).1
       = { stoppedConfigured with
             gatewayStarting := some stoppedConfigured.nextAttemptId,
             nextAttemptId := stoppedConfigured.nextAttemptId + 1 } ∧
     (ensureMany 3 stoppedConfigured).1.spawnCount = stoppedConfigured.spawnCount ∧
     (runAttemptBody stoppedConfigured.nextAttemptId fetch404 1
         (ensureMany 3 stoppedConfigured).1).spawnCount
       = stoppedConfigured.spawnCount + 1 ∧
     (runAttemptBody stoppedConfigured.nextAttemptId fetch404 1
         (ensureMany 3 stoppedConfigured).1).settled
       = (stoppedConfigured.nextAttemptId, waitForGatewayReady fetch404 0 1)
           :: stoppedConfigured.settled) :=
  ⟨⟨by decide, rfl, rfl, rfl⟩,
   c1_single_inflight_start 3 stoppedConfigured fetch404 1 (by decide) rfl rfl rfl⟩

/-- C3: when no probe of any poll cycle ever yields an HTTP response,
the readiness poll exhausts its timeout and reports not ready, the
attempt rejects (every awaiting caller sees the failure), the spawned
child is neither signalled nor its handle cleared — the handle still
holds the pid this attempt spawned — and only the in-flight-attempt
reference is cleared, leaving a later call free to act afresh. -/
theorem c3_readiness_timeout (fetch : Nat → String → Option Nat) (fuel a : Nat)
    (s : SupState) (h : ∀ i p, fetch i p = none)
    (hc : s.configured = true) (hp : s.gatewayProc = none) :
    waitForGatewayReady fetch 0 fuel = false ∧
    (runAttemptBody a fetch fuel s).gatewayProc = some s.nextPid ∧
    (runAttemptBody a fetch fuel s).signals = s.signals ∧
    (runAttemptBody a fetch fuel s).gatewayStarting = none ∧
    settledOutcome a (runAttemptBody a fetch fuel s).settled = some false := by
  have hw : waitForGatewayReady fetch 0 fuel = false :=
    waitForGatewayReady_no_response fetch h 0 fuel
  refine ⟨hw, ?_, ?_, ?_, ?_⟩ <;>
    simp [runAttemptBody, startGatewaySpawn, settleAttempt, settledOutcome, hp, hc, hw]

/-- An upstream that never accepts a connection: every probe of every
cycle throws. -/
def fetchNone : Nat → String → Option Nat := fun _ _ => none

theorem c3_witness :
    ((∀ i p, fetchNone i p = none) ∧ stoppedConfigured.configured = true ∧
     stoppedConfigured.gatewayProc = none) ∧
    (waitForGatewayReady fetchNone 0 2 = false ∧
     (runAttemptBody 0 fetchNone 2 stoppedConfigured).gatewayProc
       = some stoppedConfigured.nextPid ∧
     (runAttemptBody 0 fetchNone 2 stoppedConfigured).signals = stoppedConfigured.signals ∧
     (runAttemptBody 0 fetchNone 2 stoppedConfigured).gatewayStarting = none ∧
     settledOutcome 0 (runAttemptBody 0 fetchNone 2 stoppedConfigured).settled
       = some false) :=
  ⟨⟨fun _ _ => rfl, rfl, rfl⟩,
   c3_readiness_timeout fetchNone 2 0 stoppedConfigured (fun _ _ => rfl) rfl rfl⟩

/-- C4 as stated is false on this code.  Concrete schedule from the
Stopped configured state: one ensure call creates attempt 0 and its
caller awaits it; the attempt body spawns; the child's `error` event
fires.  The handler does clear `gatewayProc` and `gatewayStarting`,
but nothing settles the attempt promise: `settledOutcome 0 ... = none`,
so at this point no failure has been reported to the waiting caller —
the caller will only learn of the failure when the readiness poll later
exhausts its timeout, contradicting the claim's "without waiting for
the readiness-poll timeout". -/
theorem c4_counterexample :
    (ensureGatewayRunning stoppedConfigured).2 = .awaits 0 ∧
    (onGatewayError (startGatewaySpawn
        (ensureGatewayRunning stoppedConfigured).1)).gatewayProc = none ∧
    (onGatewayError (startGatewaySpawn
        (ensureGatewayRunning stoppedConfigured).1)).gatewayStarting = none ∧
    settledOutcome 0 (onGatewayError (startGatewaySpawn
        (ensureGatewayRunning stoppedConfigured).1)).settled = none := by
  decide

/-- C4 amended: when spawning the gateway child fails, the `error`
handler immediately clears the process handle and the
in-flight-attempt reference, and the attempt performs no further spawn
(exactly one spawn, never retried); but the failure reaches the
waiting caller only when the readiness poll — which a dead child never
answers — exhausts its timeout and the attempt promise rejects. -/
theorem c4_spawn_error_clears_state (s : SupState) (a fuel : Nat)
    (fetch : Nat → String → Option Nat) (h : ∀ i p, fetch i p = none)
    (hc : s.configured = true) (hp : s.gatewayProc = none) :
    (onGatewayError (startGatewaySpawn s)).gatewayProc = none ∧
    (onGatewayError (startGatewaySpawn s)).gatewayStarting = none ∧
    (onGatewayError (startGatewaySpawn s)).settled = s.settled ∧
    (onGatewayError (startGatewaySpawn s)).spawnCount = s.spawnCount + 1 ∧
    settledOutcome a
      (settleAttempt a (waitForGatewayReady fetch 0 fuel)
        (onGatewayError (startGatewaySpawn s))).settled = some false ∧
    (settleAttempt a (waitForGatewayReady fetch 0 fuel)
        (onGatewayError (startGatewaySpawn s))).spawnCount = s.spawnCount + 1 := by
  have hw : waitForGatewayReady fetch 0 fuel = false :=
    waitForGatewayReady_no_response fetch h 0 fuel
  refine ⟨?_, ?_, ?_, ?_, ?_, ?_⟩ <;>
    simp [onGatewayError, startGatewaySpawn, settleAttempt, settledOutcome, hp, hc, hw]

theorem c4_witness :
    ((∀ i p, fetchNone i p = none) ∧ stoppedConfigured.configured = true ∧
     stoppedConfigured.gatewayProc = none) ∧
    ((onGatewayError (startGatewaySpawn stoppedConfigured)).gatewayProc = none ∧
     (onGatewayError (startGatewaySpawn stoppedConfigured)).gatewayStarting = none ∧
     (onGatewayError (startGatewaySpawn stoppedConfigured)).settled
       = stoppedConfigured.settled ∧
     (onGatewayError (startGatewaySpawn stoppedConfigured)).spawnCount
       = stoppedConfigured.spawnCount + 1 ∧
     settledOutcome 0
       (settleAttempt 0 (waitForGatewayReady fetchNone 0 2)
         (onGatewayError (startGatewaySpawn stoppedConfigured))).settled = some false ∧
     (settleAttempt 0 (waitForGatewayReady fetchNone 0 2)
         (onGatewayError (startGatewaySpawn stoppedConfigured))).spawnCount
       = stoppedConfigured.spawnCount + 1) :=
  ⟨⟨fun _ _ => rfl, rfl, rfl⟩,
   c4_spawn_error_clears_state stoppedConfigured 0 2 fetchNone (fun _ _ => rfl) rfl rfl⟩

/-- C5: whatever exit code and signal the child terminated with, the
`exit` handler clears both the process handle and the
in-flight-attempt reference, so a subsequent ensure call — far from
reporting "already running" or joining a stale attempt — creates a
fresh attempt whose body spawns a new child process. -/
theorem c5_exit_clears_state (s : SupState) (pid : Nat) (code : Option Int)
    (signal : Option String) (hc : s.configured = true)
    (hp : s.gatewayProc = some pid) :
    (onGatewayExit code signal s).gatewayProc = none ∧
    (onGatewayExit code signal s).gatewayStarting = none ∧
    (ensureGatewayRunning (onGatewayExit code signal s)).2 = .awaits s.nextAttemptId ∧
    (startGatewaySpawn (ensureGatewayRunning (onGatewayExit code signal s)).1).spawnCount
      = s.spawnCount + 1 ∧
    (startGatewaySpawn (ensureGatewayRunning (onGatewayExit code signal s)).1).gatewayProc
      = some s.nextPid := by
  refine ⟨rfl, rfl, ?_, ?_, ?_⟩ <;>
    simp [onGatewayExit, ensureGatewayRunning, startGatewaySpawn, hc]

/-- A supervisor state with a live gateway child (pid 77). -/
def runningState : SupState :=
  { configured := true, gatewayProc := some 77, gatewayStarting := none,
    nextAttemptId := 5, nextPid := 78, spawnCount := 1,
    settled := [(4, true)], signals := [], sleepMs := 0 }

theorem c5_witness :
    (runningState.configured = true ∧ runningState.gatewayProc = some 77) ∧
    ((onGatewayExit (some 1) none runningState).gatewayProc = none ∧
     (onGatewayExit (some 1) none runningState).gatewayStarting = none ∧
     (ensureGatewayRunning (onGatewayExit (some 1) none runningState)).2
       = .awaits runningState.nextAttemptId ∧
     (startGatewaySpawn
         (ensureGatewayRunning (onGatewayExit (some 1) none runningState)).1).spawnCount
       = runningState.spawnCount + 1 ∧
     (startGatewaySpawn
         (ensureGatewayRunning (onGatewayExit (some 1) none runningState)).1).gatewayProc
       = some runningState.nextPid) :=
  ⟨⟨rfl, rfl⟩, c5_exit_clears_state runningState 77 (some 1) none rfl rfl⟩

/-- C8: with the same state directory and no env override, resolving
the gateway token twice yields the same token, and the second
resolution reuses what the first left on disk (same resulting
filesystem — in particular no second write) instead of adopting its
fresh generation `g2`.  The hypotheses say only that the first call's
freshly generated token is a trimmed nonempty string, which the 64-char
hex output of `crypto.randomBytes(32).toString("hex")` always is. -/
theorem c8_token_stability (g1 g2 stateDir : String) (fsv : FsState)
    (htrim : strTrim g1 = g1) (hne : g1 ≠ "") :
    (resolveGatewayToken none g2 stateDir
        (resolveGatewayToken none g1 stateDir fsv).2).1
      = (resolveGatewayToken none g1 stateDir fsv).1 ∧
    (resolveGatewayToken none g2 stateDir
        (resolveGatewayToken none g1 stateDir fsv).2).2
      = (resolveGatewayToken none g1 stateDir fsv).2 := by
  cases hread : fsRead fsv (gatewayTokenPath stateDir) with
  | none =>
    constructor <;>
      simp [resolveGatewayToken, hread, fsWrite, fsRead, htrim, hne]
  | some content =>
    by_cases hct : strTrim content = ""
    · constructor <;>
        simp [resolveGatewayToken, hread, hct, fsWrite, fsRead, htrim, hne]
    · constructor <;>
        simp [resolveGatewayToken, hread, hct]

theorem c8_witness :
    (strTrim "a1b2c3" = "a1b2c3" ∧ ("a1b2c3" : String) ≠ "") ∧
    ((resolveGatewayToken none "ffff" "/data/.openclaw"
        (resolveGatewayToken none "a1b2c3" "/data/.openclaw" []).2).1
       = (resolveGatewayToken none "a1b2c3" "/data/.openclaw" []).1 ∧
     (resolveGatewayToken none "ffff" "/data/.openclaw"
        (resolveGatewayToken none "a1b2c3" "/data/.openclaw" []).2).2
       = (resolveGatewayToken none "a1b2c3" "/data/.openclaw" []).2) :=
  ⟨⟨by decide, by decide⟩,
   c8_token_stability "a1b2c3" "ffff" "/data/.openclaw" [] (by decide) (by decide)⟩
